import Mathlib

set_option maxRecDepth 8000

/-!
Shallow embedding of the AgriBot Telegram assistant (DevNathanHub/AgriBot)
and proofs about its intent classification, entity extraction, response
generation, notification jobs, data cleanup, rate limiting and
authentication code paths.

Source files embedded here:
* `src/services/aiService.js` (intent detection, entity extraction,
  response generation with external-backend fallbacks),
* `src/cron/cronJobs.js` (weather broadcast job, data cleanup job),
* `src/middleware/rateLimiter.js` (token-bucket wrappers, adaptive limiter),
* the Telegram authentication route (`router.post('/telegram')`) and the
  User model's `updateLastInteraction`.
-/

namespace AgriBot

/-! ### Strings: JS `String.prototype.includes` and `toLowerCase` -/

/-- `charsPrefixed pat l` is true when `pat` is a prefix of `l`
(character lists). -/
def charsPrefixed : List Char → List Char → Bool
  | [], _ => true
  | _ :: _, [] => false
  | a :: as, b :: bs => a == b && charsPrefixed as bs

/-- `charsContain pat l` is true when `pat` occurs contiguously inside `l`. -/
def charsContain (pat : List Char) : List Char → Bool
  | [] => charsPrefixed pat []
  | b :: bs => charsPrefixed pat (b :: bs) || charsContain pat bs

/-- JS `text.includes(pat)`: `pat` occurs as a contiguous substring of
`text`. -/
def strIncludes (text pat : String) : Bool :=
  charsContain pat.toList text.toList

/-- JS `text.toLowerCase()` (the texts handled by this program are ASCII,
where JS and `Char.toLower` agree). -/
def lowercase (s : String) : String :=
  String.mk (s.toList.map Char.toLower)

theorem charsContain_append_right (pat l₂ : List Char) (l₁ : List Char)
    (h : charsContain pat l₂ = true) : charsContain pat (l₁ ++ l₂) = true := by
  induction l₁ with
  | nil => simpa using h
  | cons a as ih =>
    simp only [List.cons_append, charsContain, Bool.or_eq_true]
    exact Or.inr ih

/-- `includes` is monotone under prepending text on the left. -/
theorem strIncludes_append_left (a b pat : String)
    (h : strIncludes b pat = true) : strIncludes (a ++ b) pat = true := by
  unfold strIncludes at *
  rw [show (a ++ b).toList = a.toList ++ b.toList from String.data_append a b]
  exact charsContain_append_right _ _ _ h

theorem charsPrefixed_append (pat l suffix : List Char)
    (h : charsPrefixed pat l = true) : charsPrefixed pat (l ++ suffix) = true := by
  induction pat generalizing l with
  | nil => simp [charsPrefixed]
  | cons p ps ihp =>
    cases l with
    | nil => simp [charsPrefixed] at h
    | cons d ds =>
      simp only [charsPrefixed, Bool.and_eq_true, List.cons_append] at h ⊢
      exact ⟨h.1, ihp ds h.2⟩

theorem charsContain_append_left (pat l₁ l₂ : List Char)
    (h : charsContain pat l₁ = true) : charsContain pat (l₁ ++ l₂) = true := by
  induction l₁ with
  | nil =>
    cases pat with
    | nil =>
      cases l₂ with
      | nil => simpa using h
      | cons c cs => simp [charsContain, charsPrefixed]
    | cons p ps => simp [charsContain, charsPrefixed] at h
  | cons c cs ih =>
    simp only [charsContain, Bool.or_eq_true, List.cons_append] at h ⊢
    rcases h with h | h
    · exact Or.inl (charsPrefixed_append _ _ _ h)
    · exact Or.inr (ih h)

/-- `includes` is monotone under appending text on the right. -/
theorem strIncludes_append_right (a b pat : String)
    (h : strIncludes a pat = true) : strIncludes (a ++ b) pat = true := by
  unfold strIncludes at *
  rw [show (a ++ b).toList = a.toList ++ b.toList from String.data_append a b]
  exact charsContain_append_left _ _ _ h

/-! ### Intent classification (`AIService.detectIntent`) -/

/-- The intent → trigger-keyword table (`AIService.intents`), in its fixed
declared iteration order. -/
def intents : List (String × List String) :=
  [("greeting", ["hello", "hi", "hey", "good morning", "good evening"]),
   ("weather", ["weather", "temperature", "rain", "sunny", "cloudy", "forecast"]),
   ("crops", ["crop", "plant", "grow", "seed", "harvest", "farming"]),
   ("market", ["price", "market", "sell", "buy", "cost", "rate"]),
   ("pest", ["pest", "insect", "bug", "disease", "infection", "treatment"]),
   ("irrigation", ["water", "irrigation", "watering", "drought", "moisture"]),
   ("fertilizer", ["fertilizer", "nutrient", "manure", "compost", "nitrogen"]),
   ("news", ["news", "latest", "headlines", "updates", "article"]),
   ("help", ["help", "assist", "support", "guide", "how to"])]

/-- `keywords.some(keyword => lowercaseText.includes(keyword))`. -/
def intentMatches (lowercaseText : String) (keywords : List String) : Bool :=
  keywords.any (fun keyword => strIncludes lowercaseText keyword)

/-- `AIService.detectIntent`: lower-case the input, return the first intent
(in declared order) with a matching keyword, else `"general"`. -/
def detectIntent (text : String) : String :=
  match intents.find? (fun p => intentMatches (lowercase text) p.2) with
  | some p => p.1
  | none => "general"

/-! ### Entity extraction (`AIService.extractEntities`) -/

structure Entity where
  type : String
  value : String
deriving DecidableEq

/-- The closed crop vocabulary scanned by `extractEntities`. -/
def cropVocab : List String :=
  ["wheat", "corn", "rice", "tomato", "potato", "soybean"]

/-- The closed location vocabulary scanned by `extractEntities`. -/
def locationVocab : List String :=
  ["kenya", "nairobi", "mombasa", "kisumu", "nakuru"]

/-- `AIService.extractEntities`: push one `{type:'crop',value:c}` for every
matched crop (in vocabulary order), then one `{type:'location',value:l}`
for every matched location. -/
def extractEntities (text : String) : List Entity :=
  (cropVocab.filter (fun crop => strIncludes (lowercase text) crop)).map
      (fun crop => Entity.mk "crop" crop)
    ++ (locationVocab.filter (fun location => strIncludes (lowercase text) location)).map
      (fun location => Entity.mk "location" location)

/-! ### C1 / C2 theorems -/

/-- First-match helper: if position `i` satisfies the predicate and all
earlier positions do not, `find?` returns the element at `i`. -/
theorem find?_eq_of_first {α : Type} (p : α → Bool) :
    ∀ (l : List α) (i : Nat) (h : i < l.length),
      p (l.get ⟨i, h⟩) = true →
      (∀ j (hj : j < i), p (l.get ⟨j, Nat.lt_trans hj h⟩) = false) →
      l.find? p = some (l.get ⟨i, h⟩)
  | a :: t, 0, _, hp, _ => by
    simpa using List.find?_cons_of_pos t (by simpa using hp)
  | a :: t, i + 1, h, hp, hprev => by
    have ha : p a = false := hprev 0 (Nat.succ_pos i)
    have ih := find?_eq_of_first p t i (Nat.lt_of_succ_lt_succ h)
      (by simpa using hp)
      (fun j hj => by simpa using hprev (j + 1) (Nat.succ_lt_succ hj))
    rw [List.find?_cons_of_neg t (by simp [ha])]
    simpa using ih

/-- C1: `detectIntent` is total (it is a Lean function into `String`); the
result is the first intent in the declared order whose keyword set matches
the lower-cased input; an input matched by exactly one intent's keyword set
yields that intent; an input matching no keyword set yields `"general"`. -/
theorem detectIntent_first_match_total (text : String) :
    (∀ (i : Nat) (h : i < intents.length),
        intentMatches (lowercase text) (intents.get ⟨i, h⟩).2 = true →
        (∀ j (hj : j < i),
          intentMatches (lowercase text) (intents.get ⟨j, Nat.lt_trans hj h⟩).2 = false) →
        detectIntent text = (intents.get ⟨i, h⟩).1)
    ∧ (∀ name kws, (name, kws) ∈ intents →
        intentMatches (lowercase text) kws = true →
        (∀ p ∈ intents, intentMatches (lowercase text) p.2 = true → p = (name, kws)) →
        detectIntent text = name)
    ∧ ((∀ p ∈ intents, intentMatches (lowercase text) p.2 = false) →
        detectIntent text = "general") := by
  refine ⟨?_, ?_, ?_⟩
  · intro i h hp hprev
    unfold detectIntent
    rw [find?_eq_of_first (fun p => intentMatches (lowercase text) p.2) intents i h hp hprev]
  · intro name kws hmem hmatch huniq
    unfold detectIntent
    cases hfind : intents.find? (fun p => intentMatches (lowercase text) p.2) with
    | none =>
      exfalso
      have := List.find?_eq_none.mp hfind (name, kws) hmem
      simp [hmatch] at this
    | some q =>
      have hq : intentMatches (lowercase text) q.2 = true := by
        simpa using List.find?_some hfind
      have hqmem : q ∈ intents := List.mem_of_find?_eq_some hfind
      have heq := huniq q hqmem hq
      rw [heq]
  · intro hnone
    unfold detectIntent
    have hfind : intents.find? (fun p => intentMatches (lowercase text) p.2) = none := by
      rw [List.find?_eq_none]
      intro x hx
      simp [hnone x hx]
    rw [hfind]

/-- Witness for C1 at concrete inputs. -/
theorem detectIntent_first_match_total_witness :
    detectIntent "hello world" = "greeting" ∧ detectIntent "xyzzy" = "general" :=
  ⟨(detectIntent_first_match_total "hello world").2.1 "greeting"
      ["hello", "hi", "hey", "good morning", "good evening"]
      (by decide) (by decide) (by decide),
   (detectIntent_first_match_total "xyzzy").2.2 (by decide)⟩

/-- C2: `extractEntities` returns one crop entity per distinct matched crop
of the crop vocabulary and one location entity per distinct matched place
name (count exactly 1 for each matched name). -/
theorem extractEntities_all_matches (text : String) :
    (∀ c ∈ cropVocab, strIncludes (lowercase text) c = true →
        (extractEntities text).count (Entity.mk "crop" c) = 1)
    ∧ (∀ l ∈ locationVocab, strIncludes (lowercase text) l = true →
        (extractEntities text).count (Entity.mk "location" l) = 1) := by
  have hcropInj : Function.Injective (fun crop => Entity.mk "crop" crop) := by
    intro a b h
    simpa using h
  have hlocInj : Function.Injective (fun location => Entity.mk "location" location) := by
    intro a b h
    simpa using h
  constructor
  · intro c hc hmatch
    unfold extractEntities
    rw [List.count_append]
    have h1 : ((cropVocab.filter (fun crop => strIncludes (lowercase text) crop)).map
        (fun crop => Entity.mk "crop" crop)).count (Entity.mk "crop" c) = 1 := by
      apply List.count_eq_one_of_mem
      · exact ((show cropVocab.Nodup by decide).filter _).map hcropInj
      · exact List.mem_map_of_mem _ (List.mem_filter.mpr ⟨hc, hmatch⟩)
    have h2 : ((locationVocab.filter (fun location => strIncludes (lowercase text) location)).map
        (fun location => Entity.mk "location" location)).count (Entity.mk "crop" c) = 0 := by
      rw [List.count_eq_zero]
      intro hmem
      rcases List.mem_map.mp hmem with ⟨l, _, hl⟩
      simp only [Entity.mk.injEq] at hl
      exact absurd hl.1 (by decide)
    omega
  · intro l hl hmatch
    unfold extractEntities
    rw [List.count_append]
    have h1 : ((cropVocab.filter (fun crop => strIncludes (lowercase text) crop)).map
        (fun crop => Entity.mk "crop" crop)).count (Entity.mk "location" l) = 0 := by
      rw [List.count_eq_zero]
      intro hmem
      rcases List.mem_map.mp hmem with ⟨c, _, hc⟩
      simp only [Entity.mk.injEq] at hc
      exact absurd hc.1 (by decide)
    have h2 : ((locationVocab.filter (fun location => strIncludes (lowercase text) location)).map
        (fun location => Entity.mk "location" location)).count (Entity.mk "location" l) = 1 := by
      apply List.count_eq_one_of_mem
      · exact ((show locationVocab.Nodup by decide).filter _).map hlocInj
      · exact List.mem_map_of_mem _ (List.mem_filter.mpr ⟨hl, hmatch⟩)
    omega

/-- Witness for C2: a message mentioning two crops and a location yields
one entity for each. -/
theorem extractEntities_all_matches_witness :
    (extractEntities "corn and rice prices in Nairobi").count (Entity.mk "crop" "corn") = 1
    ∧ (extractEntities "corn and rice prices in Nairobi").count
        (Entity.mk "location" "nairobi") = 1 :=
  ⟨(extractEntities_all_matches "corn and rice prices in Nairobi").1 "corn"
      (by decide) (by decide),
   (extractEntities_all_matches "corn and rice prices in Nairobi").2 "nairobi"
      (by decide) (by decide)⟩

/-! ### Response generation (`AIService.generateResponse` and helpers)

The external collaborators (Gemini advice backend, news service) are passed
in explicitly; every call site in the source wraps them in try/catch, which
is embedded as a `match` on an `Except` result. -/

structure AgriProfile where
  location : Option String
  cropsOfInterest : Option (List String)
deriving DecidableEq

structure BotUser where
  firstName : String
  agriculturalProfile : Option AgriProfile
deriving DecidableEq

/-- JS `v || dflt` for string-valued options (the empty string is falsy). -/
def jsOrDefault (v : Option String) (dflt : String) : String :=
  match v with
  | none => dflt
  | some s => if s = "" then dflt else s

/-- `user.agriculturalProfile?.location || 'Kenya'`. -/
def userLocation (user : BotUser) : String :=
  jsOrDefault (user.agriculturalProfile.bind (fun p => p.location)) "Kenya"

/-- `user.agriculturalProfile?.cropsOfInterest?.join(', ') || 'general crops'`. -/
def userCrops (user : BotUser) : String :=
  jsOrDefault ((user.agriculturalProfile.bind (fun p => p.cropsOfInterest)).map
    (fun l => String.intercalate ", " l)) "general crops"

/-- Inline quick-reply keyboard: rows of `(text, callback_data)` buttons. -/
abbrev Keyboard := List (List (String × String))

structure RenderedResponse where
  text : String
  confidence : ℚ
  keyboard : Option Keyboard
deriving DecidableEq

/-- Result shape of `newsService.getNewsByCategory`. -/
structure NewsResult where
  success : Bool
  articles : List String
  error : Option String
deriving DecidableEq

/-- The external collaborators of `AIService`: the Gemini advice backend
(`model.generateContent`, which may fail), the news service, the news
formatter, and the `Math.random()` draw used by template-picking branches. -/
structure Collaborators where
  advice : String → Except String String
  news : String → Except String NewsResult
  formatNews : List String → Nat → String
  rand : Nat

def greetingTemplates (user : BotUser) : List String :=
  ["Hello " ++ user.firstName ++ "! 🌱 How can I help you with your farming today?",
   "Hi there! 🚜 What agricultural question do you have for me?",
   "Welcome back! 🌾 Ready to grow something amazing together?"]

def generateGreetingResponse (rand : Nat) (user : BotUser) : RenderedResponse :=
  ⟨(greetingTemplates user).getD (rand % (greetingTemplates user).length) "", 9/10,
   some [[("🌤️ Weather", "weather"), ("🌱 Crops", "crops")],
         [("📊 Market", "market"), ("💡 Tips", "tips")]]⟩

def generateWeatherResponse : RenderedResponse :=
  ⟨"🌤️ Let me get the latest weather information for you! Use /weather to get current conditions and forecasts for your location.",
   8/10,
   some [[("🌦️ Current Weather", "current_weather"), ("📅 Forecast", "weather_forecast")]]⟩

def generateMarketResponse : RenderedResponse :=
  ⟨"📈 Let me help you with market price information! Use /market to get current prices for your crops, or specify which crop prices you'd like to know about.",
   8/10,
   some [[("🌾 Grain Prices", "market_grains"), ("🥕 Vegetable Prices", "market_vegetables")]]⟩

structure CropInfo where
  plantingTime : String
  harvestTime : String
  waterRequirement : String
  commonDiseases : List String
  tips : String
deriving DecidableEq

/-- `AIService.cropDatabase`. -/
def cropDatabase : List (String × CropInfo) :=
  [("wheat", ⟨"October-December", "March-May", "Moderate",
      ["Rust", "Smut", "Blight"], "Plant in well-drained soil with pH 6.0-7.5"⟩),
   ("corn", ⟨"April-June", "August-October", "High",
      ["Corn Borer", "Leaf Blight"], "Requires warm weather and regular watering"⟩),
   ("rice", ⟨"June-July", "October-December", "Very High",
      ["Blast", "Bacterial Blight"], "Grows best in flooded fields"⟩)]

/-- JS `s.charAt(0).toUpperCase() + s.slice(1)`. -/
def capitalizeFirst (s : String) : String :=
  match s.toList with
  | [] => ""
  | c :: rest => String.mk (c.toUpper :: rest)

def renderCropInfo (name : String) (info : CropInfo) : String :=
  "🌾 *" ++ capitalizeFirst name ++ " Information*\n\n"
    ++ "🌱 Planting Time: " ++ info.plantingTime ++ "\n"
    ++ "🌾 Harvest Time: " ++ info.harvestTime ++ "\n"
    ++ "💧 Water Requirement: " ++ info.waterRequirement ++ "\n"
    ++ "🦠 Common Diseases: " ++ String.intercalate ", " info.commonDiseases ++ "\n"
    ++ "💡 Tip: " ++ info.tips

def pickACropResponse : RenderedResponse :=
  ⟨"🌱 I'd be happy to help you with crop information! Could you specify which crop you're interested in? I have information about wheat, corn, rice, and many others.",
   7/10,
   some [[("🌾 Wheat", "crop_info:wheat"), ("🌽 Corn", "crop_info:corn")],
         [("🍚 Rice", "crop_info:rice"), ("🫘 Soybeans", "crop_info:soybeans")]]⟩

/-- The static tail of `generateCropResponse`: the crop-fact table when the
extracted crop is known, the pick-a-crop template otherwise. -/
def cropDatabaseFallback (cropEntity : Option Entity) : RenderedResponse :=
  match cropEntity with
  | some e =>
    match cropDatabase.find? (fun p => p.1 == e.value) with
    | some p => ⟨renderCropInfo e.value p.2, 9/10, none⟩
    | none => pickACropResponse
  | none => pickACropResponse

def cropPrompt (originalText userLoc userCropsStr specificCrop : String) : String :=
  "You are an agricultural expert helping a farmer in " ++ userLoc
    ++ ". \n                \nQuestion: \"" ++ originalText
    ++ "\"\nUser grows: " ++ userCropsStr
    ++ "\nSpecific crop: " ++ specificCrop
    ++ "\n\nProvide specific, actionable advice for crop management in Kenya's climate. Include:\n- Planting/growing tips\n- Seasonal considerations for Kenya\n- Local farming practices\n- Practical solutions\n\nKeep response under 150 words and use appropriate emojis."

/-- `AIService.generateCropResponse`: for question-like texts or a detected
crop entity, delegate to the advice backend; on failure fall back to the
static crop database (then the pick-a-crop template). -/
def generateCropResponse (co : Collaborators) (entities : List Entity)
    (originalText : String) (user : BotUser) : RenderedResponse :=
  let cropEntity := entities.find? (fun e => e.type == "crop")
  if strIncludes originalText "how to" || strIncludes originalText "when to"
      || strIncludes originalText "best" || cropEntity.isSome then
    match co.advice (cropPrompt originalText (userLocation user) (userCrops user)
        (match cropEntity with | some e => e.value | none => "farming")) with
    | Except.ok t =>
      ⟨t, 9/10,
       some [[("🌤️ Weather Info", "weather_info"), ("📈 Market Prices", "market_info")],
             [("💡 More Tips", "farming_tips")]]⟩
    | Except.error _ => cropDatabaseFallback cropEntity
  else cropDatabaseFallback cropEntity

def pestPrompt (originalText : String) : String :=
  "You are a plant pathology expert helping a farmer in Kenya with pest management.\n\nQuestion: \""
    ++ originalText
    ++ "\"\n\nProvide practical advice for pest identification and control in Kenya. Include:\n- Common pests in Kenya\n- Organic/sustainable control methods\n- Prevention strategies\n- When to seek professional help\n\nKeep response under 150 words with emojis."

def pestFallbackText : String :=
  "🐛 I can help you with pest management! For specific pest issues, please describe the symptoms you're seeing on your crops, and I'll provide targeted advice."

/-- `AIService.generatePestResponse`. -/
def generatePestResponse (co : Collaborators) (originalText : String) : RenderedResponse :=
  match co.advice (pestPrompt originalText) with
  | Except.ok t => ⟨t, 8/10, none⟩
  | Except.error _ => ⟨pestFallbackText, 7/10, none⟩

def irrigationPrompt (originalText : String) : String :=
  "You are an irrigation specialist helping a farmer in Kenya with water management.\n\nQuestion: \""
    ++ originalText
    ++ "\"\n\nProvide practical irrigation advice for Kenya's climate including:\n- Water-efficient techniques\n- Seasonal watering strategies\n- Drought management\n- Local irrigation methods\n\nKeep response under 150 words with emojis."

def irrigationFallbackText : String :=
  "💧 I can help with irrigation planning! Consider drip irrigation for water efficiency, and time watering for early morning to reduce evaporation."

/-- `AIService.generateIrrigationResponse`. -/
def generateIrrigationResponse (co : Collaborators) (originalText : String) : RenderedResponse :=
  match co.advice (irrigationPrompt originalText) with
  | Except.ok t => ⟨t, 8/10, none⟩
  | Except.error _ => ⟨irrigationFallbackText, 7/10, none⟩

def fertilizerPrompt (originalText : String) : String :=
  "You are a soil fertility expert helping a farmer in Kenya with fertilizer and soil management.\n\nQuestion: \""
    ++ originalText
    ++ "\"\n\nProvide practical fertilizer advice for Kenya including:\n- Organic vs synthetic options\n- Local soil conditions\n- Nutrient management\n- Cost-effective solutions\n\nKeep response under 150 words with emojis."

def fertilizerFallbackText : String :=
  "🌱 For fertilizer advice, consider soil testing first. Organic compost and manure work well in Kenya's soils, plus DAP and CAN for specific nutrient needs."

/-- `AIService.generateFertilizerResponse`. -/
def generateFertilizerResponse (co : Collaborators) (originalText : String) : RenderedResponse :=
  match co.advice (fertilizerPrompt originalText) with
  | Except.ok t => ⟨t, 8/10, none⟩
  | Except.error _ => ⟨fertilizerFallbackText, 7/10, none⟩

/-- The keyword heuristic choosing a news sub-category. -/
def newsCategory (originalText : String) : String :=
  if strIncludes originalText "crop" || strIncludes originalText "harvest" then "crops"
  else if strIncludes originalText "tech" || strIncludes originalText "innovation" then "technology"
  else if strIncludes originalText "market" || strIncludes originalText "price" then "market"
  else if strIncludes originalText "weather" || strIncludes originalText "climate" then "weather"
  else if strIncludes originalText "sustainable" || strIncludes originalText "organic" then "sustainability"
  else "general"

/-- `AIService.generateNewsResponse`. -/
def generateNewsResponse (co : Collaborators) (originalText : String) : RenderedResponse :=
  match co.news (newsCategory originalText) with
  | Except.ok r =>
    if r.success && decide (0 < r.articles.length) then
      ⟨co.formatNews r.articles 3, 9/10,
       some [[("🌾 Crop News", "news_crops"), ("💰 Market News", "news_market")],
             [("🔬 Tech News", "news_technology"), ("🌱 Sustainability", "news_sustainability")],
             [("🔄 Refresh News", "news_refresh")]]⟩
    else
      ⟨"📰 I'm having trouble fetching the latest agricultural news right now. "
        ++ jsOrDefault r.error "Please try again later."
        ++ "\n\nIn the meantime, I can help you with:\n• Crop advice\n• Weather information\n• Market prices\n• Farming tips",
       6/10,
       some [[("🌤️ Weather", "weather"), ("📈 Market", "market")],
             [("🌱 Crops", "crops"), ("💡 Tips", "tips")]]⟩
  | Except.error _ =>
    ⟨"📰 Sorry, I can't fetch news right now, but I'm here to help with all your agricultural questions! Ask me about crops, weather, markets, or farming techniques.",
     5/10,
     some [[("🌱 Crop Advice", "crops"), ("🌤️ Weather", "weather")],
           [("📈 Market Prices", "market"), ("💡 Farming Tips", "tips")]]⟩

def generateHelpResponse : RenderedResponse :=
  ⟨"🤖 *AgriBot Help*\n\nI'm your intelligent agricultural assistant! I can help with:\n\n🌤️ Weather forecasts and alerts\n🌱 Crop planting and care advice\n📈 Market prices and trends\n🐛 Pest and disease management\n💧 Irrigation and water management\n🌾 Fertilizer recommendations\n📰 Latest agricultural news\n\nJust ask me anything about farming!",
   1,
   some [[("🌤️ Weather", "weather"), ("🌱 Crops", "crops")],
         [("📊 Market", "market"), ("📰 News", "news_general")],
         [("💡 Tips", "tips")]]⟩

def generalPrompt (originalText : String) (user : BotUser) : String :=
  "You are an expert agricultural assistant helping farmers in Kenya. \n            \nUser question: \""
    ++ originalText
    ++ "\"\nUser's crops of interest: "
    ++ jsOrDefault ((user.agriculturalProfile.bind (fun p => p.cropsOfInterest)).map
        (fun l => String.intercalate ", " l)) "general farming"
    ++ "\nUser's location: " ++ userLocation user
    ++ "\n\nProvide a helpful, practical response about agriculture. Keep it concise (max 200 words) and include specific actionable advice. Use emojis appropriately. Focus on:\n- Crop management\n- Weather considerations\n- Best practices\n- Local farming conditions in Kenya\n\nIf the question is not agriculture-related, politely redirect to farming topics."

def generalFallbackTemplates : List String :=
  ["🤔 I'm not entirely sure about that specific question, but I'd be happy to help! Could you rephrase it or ask about:\n\n• Weather and climate\n• Crop growing techniques\n• Market prices\n• Pest management\n• Irrigation methods\n• Fertilizers and soil health",
   "🌱 That's an interesting agricultural question! While I'm still learning, I can definitely help you with weather, crops, markets, and farming techniques. What specifically would you like to know?",
   "🚜 I want to make sure I give you the best agricultural advice! Could you provide a bit more detail about what you're looking for? I'm great with weather, crop care, market info, and farming practices."]

/-- `AIService.generateGeneralResponse`. -/
def generateGeneralResponse (co : Collaborators) (originalText : String)
    (user : BotUser) : RenderedResponse :=
  match co.advice (generalPrompt originalText user) with
  | Except.ok t =>
    ⟨t, 8/10,
     some [[("🌤️ Weather", "weather_info"), ("📈 Market", "market_info")],
           [("🌱 Crops", "crop_info"), ("💡 Tips", "farming_tips")]]⟩
  | Except.error _ =>
    ⟨generalFallbackTemplates.getD (co.rand % generalFallbackTemplates.length) "", 5/10,
     some [[("🌤️ Weather", "weather"), ("📊 Market", "market")],
           [("💡 Get Advice", "advice"), ("❓ Help", "help")]]⟩

/-- `AIService.generateResponse`: the pure switch on the detected intent. -/
def generateResponse (co : Collaborators) (intent : String) (entities : List Entity)
    (originalText : String) (user : BotUser) : RenderedResponse :=
  match intent with
  | "greeting" => generateGreetingResponse co.rand user
  | "weather" => generateWeatherResponse
  | "crops" => generateCropResponse co entities originalText user
  | "market" => generateMarketResponse
  | "pest" => generatePestResponse co originalText
  | "irrigation" => generateIrrigationResponse co originalText
  | "fertilizer" => generateFertilizerResponse co originalText
  | "news" => generateNewsResponse co originalText
  | "help" => generateHelpResponse
  | _ => generateGeneralResponse co originalText user

/-! ### C3 / C4 theorems -/

/-- C3: for the `pest`, `irrigation` and `fertilizer` intents, `generateResponse`
delegates to the advice backend with the domain prompt (a successful backend
reply is returned verbatim with confidence 0.8), and whenever the backend
call fails it returns the non-empty domain-specific canned fallback with
confidence 0.7 ≤ 0.7 — the backend error is never propagated. -/
theorem advice_intents_fallback (co : Collaborators) (entities : List Entity)
    (t : String) (user : BotUser) :
    (((co.advice (pestPrompt t)).isOk = false →
        generateResponse co "pest" entities t user
          = ⟨pestFallbackText, 7/10, none⟩ ∧ pestFallbackText ≠ ""
          ∧ (generateResponse co "pest" entities t user).confidence ≤ 7/10)
      ∧ ∀ s, co.advice (pestPrompt t) = Except.ok s →
        generateResponse co "pest" entities t user = ⟨s, 8/10, none⟩)
    ∧ (((co.advice (irrigationPrompt t)).isOk = false →
        generateResponse co "irrigation" entities t user
          = ⟨irrigationFallbackText, 7/10, none⟩ ∧ irrigationFallbackText ≠ ""
          ∧ (generateResponse co "irrigation" entities t user).confidence ≤ 7/10)
      ∧ ∀ s, co.advice (irrigationPrompt t) = Except.ok s →
        generateResponse co "irrigation" entities t user = ⟨s, 8/10, none⟩)
    ∧ (((co.advice (fertilizerPrompt t)).isOk = false →
        generateResponse co "fertilizer" entities t user
          = ⟨fertilizerFallbackText, 7/10, none⟩ ∧ fertilizerFallbackText ≠ ""
          ∧ (generateResponse co "fertilizer" entities t user).confidence ≤ 7/10)
      ∧ ∀ s, co.advice (fertilizerPrompt t) = Except.ok s →
        generateResponse co "fertilizer" entities t user = ⟨s, 8/10, none⟩) := by
  refine ⟨⟨?_, ?_⟩, ⟨?_, ?_⟩, ⟨?_, ?_⟩⟩
  · intro h
    show generatePestResponse co t = _ ∧ _ ∧ (generatePestResponse co t).confidence ≤ 7/10
    unfold generatePestResponse
    cases hc : co.advice (pestPrompt t) with
    | ok s => rw [hc] at h; simp [Except.isOk, Except.toBool] at h
    | error e => exact ⟨rfl, by decide, by norm_num⟩
  · intro s hs
    show generatePestResponse co t = _
    unfold generatePestResponse
    rw [hs]
  · intro h
    show generateIrrigationResponse co t = _ ∧ _
      ∧ (generateIrrigationResponse co t).confidence ≤ 7/10
    unfold generateIrrigationResponse
    cases hc : co.advice (irrigationPrompt t) with
    | ok s => rw [hc] at h; simp [Except.isOk, Except.toBool] at h
    | error e => exact ⟨rfl, by decide, by norm_num⟩
  · intro s hs
    show generateIrrigationResponse co t = _
    unfold generateIrrigationResponse
    rw [hs]
  · intro h
    show generateFertilizerResponse co t = _ ∧ _
      ∧ (generateFertilizerResponse co t).confidence ≤ 7/10
    unfold generateFertilizerResponse
    cases hc : co.advice (fertilizerPrompt t) with
    | ok s => rw [hc] at h; simp [Except.isOk, Except.toBool] at h
    | error e => exact ⟨rfl, by decide, by norm_num⟩
  · intro s hs
    show generateFertilizerResponse co t = _
    unfold generateFertilizerResponse
    rw [hs]

/-- A backend that always fails, and a sample user, for witnesses. -/
def downCollaborators : Collaborators :=
  ⟨fun _ => Except.error "backend down", fun _ => Except.error "backend down",
   fun _ _ => "", 0⟩

def sampleUser : BotUser := ⟨"Amina", none⟩

/-- Witness for C3 with a backend that always fails. -/
theorem advice_intents_fallback_witness :
    generateResponse downCollaborators "pest" [] "aphids on my maize" sampleUser
      = ⟨pestFallbackText, 7/10, none⟩ ∧ pestFallbackText ≠ ""
    ∧ (generateResponse downCollaborators "pest" [] "aphids on my maize" sampleUser).confidence
        ≤ 7/10 :=
  ((advice_intents_fallback downCollaborators [] "aphids on my maize" sampleUser).1.1 rfl)

/-- The end-to-end scenario input of the spec. -/
def cornQuestion : String := "What's the best time to plant corn?"

/-- The static crop-fact template rendered for corn. -/
def cornTemplate : String :=
  "🌾 *Corn Information*\n\n🌱 Planting Time: April-June\n🌾 Harvest Time: August-October\n💧 Water Requirement: High\n🦠 Common Diseases: Corn Borer, Leaf Blight\n💡 Tip: Requires warm weather and regular watering"

/-- C4: on the input `"What's the best time to plant corn?"`, `detectIntent`
returns `crops`, `extractEntities` returns exactly `[{type:crop,value:corn}]`,
the prompt handed to the advice backend contains `"corn"` (for any user
profile), and when the backend is down the generated output is the static
corn fact template from the crop database. -/
theorem corn_scenario (co : Collaborators) (user : BotUser) (msg : String)
    (hdown : co.advice (cropPrompt cornQuestion (userLocation user) (userCrops user) "corn")
      = Except.error msg) :
    detectIntent cornQuestion = "crops"
    ∧ extractEntities cornQuestion = [Entity.mk "crop" "corn"]
    ∧ (∀ loc crops, strIncludes (cropPrompt cornQuestion loc crops "corn") "corn" = true)
    ∧ generateResponse co "crops" (extractEntities cornQuestion) cornQuestion user
        = ⟨cornTemplate, 9/10, none⟩ := by
  refine ⟨by decide, by decide, ?_, ?_⟩
  · intro loc crops
    unfold cropPrompt
    apply strIncludes_append_right
    apply strIncludes_append_left
    decide
  · have hred : generateResponse co "crops" (extractEntities cornQuestion) cornQuestion user
        = match co.advice (cropPrompt cornQuestion (userLocation user) (userCrops user)
            "corn") with
          | Except.ok t =>
            ⟨t, 9/10,
             some [[("🌤️ Weather Info", "weather_info"), ("📈 Market Prices", "market_info")],
                   [("💡 More Tips", "farming_tips")]]⟩
          | Except.error _ => cropDatabaseFallback (some (Entity.mk "crop" "corn")) := rfl
    rw [hred, hdown]
    exact (show cropDatabaseFallback (some (Entity.mk "crop" "corn"))
      = ⟨cornTemplate, 9/10, none⟩ from rfl)

/-- Witness for C4 with a backend that always fails. -/
theorem corn_scenario_witness :
    detectIntent cornQuestion = "crops"
    ∧ extractEntities cornQuestion = [Entity.mk "crop" "corn"]
    ∧ (∀ loc crops, strIncludes (cropPrompt cornQuestion loc crops "corn") "corn" = true)
    ∧ generateResponse downCollaborators "crops" (extractEntities cornQuestion)
        cornQuestion sampleUser
        = ⟨cornTemplate, 9/10, none⟩ :=
  corn_scenario downCollaborators sampleUser "backend down" rfl

/-! ### Cleanup job (`CronJobs.cleanupOldData`), conversation trimming

`Conversation.find({ userId }).sort({ createdAt: -1 }).skip(1000)` returns,
for one user, everything after the first 1000 entries of the query result
(the user's records sorted by `createdAt` descending); those records are
then removed by `Conversation.deleteMany`.  The document-store query is
embedded as the sorted list it returns. -/

structure ConvRecord where
  rid : Nat
  createdAt : Nat
deriving DecidableEq

/-- The records kept by the per-user trim (the first 1000 of the
descending-sorted query result). -/
def keptConversations (queryResult : List ConvRecord) : List ConvRecord :=
  queryResult.take 1000

/-- The records removed by `Conversation.deleteMany` (everything after the
first 1000 of the descending-sorted query result). -/
def trimmedConversations (queryResult : List ConvRecord) : List ConvRecord :=
  queryResult.drop 1000

theorem sorted_take_drop_boundary (n : Nat) (qr : List ConvRecord) (cut : ConvRecord)
    (hsorted : List.Pairwise (fun a b => b.createdAt ≤ a.createdAt) qr)
    (hcut : (qr.take n).getLast? = some cut) :
    ∀ r ∈ qr,
      (r.createdAt < cut.createdAt → r ∈ qr.drop n ∧ r ∉ qr.take n)
      ∧ (cut.createdAt < r.createdAt → r ∈ qr.take n ∧ r ∉ qr.drop n) := by
  obtain ⟨ys, hys⟩ := List.getLast?_eq_some_iff.mp hcut
  have hpw : List.Pairwise (fun a b => b.createdAt ≤ a.createdAt) (qr.take n ++ qr.drop n) := by
    rw [List.take_append_drop]
    exact hsorted
  have hparts := List.pairwise_append.mp hpw
  have hcutmem : cut ∈ qr.take n := by
    rw [hys]
    exact List.mem_append_right _ (List.mem_singleton.mpr rfl)
  have hkept : ∀ x ∈ qr.take n, cut.createdAt ≤ x.createdAt := by
    intro x hx
    rw [hys] at hx
    rcases List.mem_append.mp hx with hx | hx
    · have hys2 := hparts.1
      rw [hys] at hys2
      have := (List.pairwise_append.mp hys2).2.2 x hx cut (List.mem_singleton.mpr rfl)
      exact this
    · rw [List.mem_singleton.mp hx]
  have hdropped : ∀ y ∈ qr.drop n, y.createdAt ≤ cut.createdAt := by
    intro y hy
    exact hparts.2.2 cut hcutmem y hy
  intro r hr
  have hr2 : r ∈ qr.take n ∨ r ∈ qr.drop n := by
    rw [show qr = qr.take n ++ qr.drop n from (List.take_append_drop n qr).symm] at hr
    exact List.mem_append.mp hr
  constructor
  · intro hlt
    have hnk : r ∉ qr.take n := fun hk => absurd (hkept r hk) (by omega)
    exact ⟨hr2.resolve_left hnk, hnk⟩
  · intro hgt
    have hnd : r ∉ qr.drop n := fun hd => absurd (hdropped r hd) (by omega)
    exact ⟨hr2.resolve_right hnd, hnd⟩

/-- C5: the per-user conversation trim is boundary-exact on the cutoff
induced by the most-recent-1000 retention policy: with `cut` the oldest
kept record of the descending-sorted query result, every record older than
`cut` is removed (and not kept), and no record newer than `cut` is removed
(it is kept). -/
theorem cleanup_conversations_boundary (qr : List ConvRecord) (cut : ConvRecord)
    (hsorted : List.Pairwise (fun a b => b.createdAt ≤ a.createdAt) qr)
    (hcut : (keptConversations qr).getLast? = some cut) :
    ∀ r ∈ qr,
      (r.createdAt < cut.createdAt →
        r ∈ trimmedConversations qr ∧ r ∉ keptConversations qr)
      ∧ (cut.createdAt < r.createdAt →
        r ∈ keptConversations qr ∧ r ∉ trimmedConversations qr) :=
  sorted_take_drop_boundary 1000 qr cut hsorted hcut

/-- Witness for C5 on a concrete sorted query result: the record newer than
the cutoff is kept, not trimmed. -/
theorem cleanup_conversations_boundary_witness :
    ConvRecord.mk 1 30
      ∈ keptConversations [ConvRecord.mk 1 30, ConvRecord.mk 2 20, ConvRecord.mk 3 10]
    ∧ ConvRecord.mk 1 30
      ∉ trimmedConversations [ConvRecord.mk 1 30, ConvRecord.mk 2 20, ConvRecord.mk 3 10] :=
  (cleanup_conversations_boundary
    [ConvRecord.mk 1 30, ConvRecord.mk 2 20, ConvRecord.mk 3 10]
    (ConvRecord.mk 3 10) (by decide) (by decide)
    (ConvRecord.mk 1 30) (by decide)).2 (by decide)

/-! ### Weather broadcast job (`CronJobs.sendWeatherUpdates`)

The document-store query
`User.find({'botData.notificationSettings.weather': true,
'permissions.isBanned': false})` is embedded as a filter over the account
list; the per-user loop body (weather fetch + message formatting, then
`bot.sendMessage`) is embedded with the two external collaborators
`render` (`weatherService.getAgriculturalWeather` composed with
`formatWeatherUpdateMessage`, which may fail) and `deliver`
(`bot.sendMessage`, returning success or failure); the per-user
`try/catch` that logs and continues is the `SendEvent.failed` branch. -/

structure Account where
  telegramId : Nat
  weatherNotif : Bool
  isBanned : Bool
  coordinates : Option (Int × Int)
deriving DecidableEq

/-- The weather-update eligibility query. -/
def weatherQuery (users : List Account) : List Account :=
  users.filter (fun u => u.weatherNotif && !u.isBanned)

inductive SendEvent where
  | sent (recipient : Nat) (message : String)
  | failed (recipient : Nat)
deriving DecidableEq

def SendEvent.recipient : SendEvent → Nat
  | SendEvent.sent r _ => r
  | SendEvent.failed r => r

def SendEvent.isSent : SendEvent → Bool
  | SendEvent.sent _ _ => true
  | SendEvent.failed _ => false

/-- One iteration of the per-user loop: skip silently when no coordinates
(`continue`), otherwise render and deliver, catching any failure. -/
def weatherStep (render : Account → Except String String)
    (deliver : Nat → String → Bool) (u : Account) : Option SendEvent :=
  match u.coordinates with
  | none => none
  | some _ =>
    match render u with
    | Except.error _ => some (SendEvent.failed u.telegramId)
    | Except.ok msg =>
      if deliver u.telegramId msg then some (SendEvent.sent u.telegramId msg)
      else some (SendEvent.failed u.telegramId)

/-- `CronJobs.sendWeatherUpdates`: the ordered log of per-recipient
outcomes of one job run. -/
def sendWeatherUpdates (render : Account → Except String String)
    (deliver : Nat → String → Bool) (users : List Account) : List SendEvent :=
  (weatherQuery users).filterMap (weatherStep render deliver)

/-- The accounts that actually receive a delivery attempt: eligible by the
query and having location coordinates. -/
def eligibleWeatherUsers (users : List Account) : List Account :=
  (weatherQuery users).filter (fun u => u.coordinates.isSome)

/-- The per-recipient outcome, for accounts with coordinates. -/
def weatherEvent (render : Account → Except String String)
    (deliver : Nat → String → Bool) (u : Account) : SendEvent :=
  match render u with
  | Except.error _ => SendEvent.failed u.telegramId
  | Except.ok msg =>
    if deliver u.telegramId msg then SendEvent.sent u.telegramId msg
    else SendEvent.failed u.telegramId

/-- Whether the per-recipient processing of `u` fails (render or delivery). -/
def deliveryFails (render : Account → Except String String)
    (deliver : Nat → String → Bool) (u : Account) : Bool :=
  match render u with
  | Except.error _ => true
  | Except.ok msg => !(deliver u.telegramId msg)

theorem weatherStep_eq_of_coordinates (render : Account → Except String String)
    (deliver : Nat → String → Bool) (u : Account) (h : u.coordinates.isSome = true) :
    weatherStep render deliver u = some (weatherEvent render deliver u) := by
  unfold weatherStep weatherEvent
  cases hc : u.coordinates with
  | none => rw [hc] at h; simp [Option.isSome] at h
  | some c =>
    cases render u with
    | error e => rfl
    | ok msg => by_cases hd : deliver u.telegramId msg <;> simp [hd]

theorem sendWeatherUpdates_eq_map (render : Account → Except String String)
    (deliver : Nat → String → Bool) (users : List Account) :
    sendWeatherUpdates render deliver users
      = (eligibleWeatherUsers users).map (weatherEvent render deliver) := by
  unfold sendWeatherUpdates eligibleWeatherUsers
  induction weatherQuery users with
  | nil => rfl
  | cons u t ih =>
    cases hc : u.coordinates with
    | none =>
      rw [List.filterMap_cons, List.filter_cons]
      simp only [hc, Option.isSome]
      have hstep : weatherStep render deliver u = none := by
        unfold weatherStep
        rw [hc]
      rw [hstep]
      simpa using ih
    | some c =>
      rw [List.filterMap_cons, List.filter_cons]
      have hsome : u.coordinates.isSome = true := by rw [hc]; rfl
      rw [weatherStep_eq_of_coordinates render deliver u hsome]
      simp only [hsome, List.map_cons, if_true]
      rw [ih]

theorem weatherEvent_recipient (render : Account → Except String String)
    (deliver : Nat → String → Bool) (u : Account) :
    (weatherEvent render deliver u).recipient = u.telegramId := by
  unfold weatherEvent
  cases render u with
  | error e => rfl
  | ok msg => by_cases hd : deliver u.telegramId msg <;> simp [hd, SendEvent.recipient]

theorem weatherEvent_isSent (render : Account → Except String String)
    (deliver : Nat → String → Bool) (u : Account) :
    (weatherEvent render deliver u).isSent = !(deliveryFails render deliver u) := by
  unfold weatherEvent deliveryFails
  cases render u with
  | error e => rfl
  | ok msg => by_cases hd : deliver u.telegramId msg <;> simp [hd, SendEvent.isSent]

/-- C6: in one weather-job run, a message is rendered and handed to the
delivery channel for an account exactly when
`notificationSettings.weather == true`, `isBanned == false`, and location
coordinates are present.  (Identities are the natural key: assumed
pairwise distinct; rendering itself is assumed not to fail, so every
logged event is a delivery-channel hand-off.) -/
theorem weather_job_eligibility (render : Account → Except String String)
    (deliver : Nat → String → Bool) (users : List Account) (a : Account)
    (hmem : a ∈ users)
    (hids : (users.map (fun u => u.telegramId)).Nodup)
    (_hrender : ∀ u, ∃ m, render u = Except.ok m) :
    (∃ e ∈ sendWeatherUpdates render deliver users, e.recipient = a.telegramId)
    ↔ (a.weatherNotif = true ∧ a.isBanned = false ∧ a.coordinates.isSome = true) := by
  constructor
  · rintro ⟨e, he, hrec⟩
    rcases List.mem_filterMap.mp he with ⟨u, hu, hstep⟩
    have huq := List.mem_filter.mp hu
    have hcoord : u.coordinates.isSome = true := by
      by_contra hc
      have : u.coordinates = none := by
        cases hco : u.coordinates with
        | none => rfl
        | some c => rw [hco] at hc; simp [Option.isSome] at hc
      unfold weatherStep at hstep
      rw [this] at hstep
      exact Option.noConfusion hstep
    rw [weatherStep_eq_of_coordinates render deliver u hcoord] at hstep
    have hue : e = weatherEvent render deliver u := (Option.some.injEq _ _).mp hstep.symm
    have hid : u.telegramId = a.telegramId := by
      rw [hue] at hrec
      rw [weatherEvent_recipient] at hrec
      exact hrec
    have hua : u = a :=
      List.inj_on_of_nodup_map hids huq.1 hmem hid
    subst hua
    have hflag := huq.2
    simp only [Bool.and_eq_true, Bool.not_eq_true'] at hflag
    exact ⟨hflag.1, hflag.2, hcoord⟩
  · rintro ⟨hw, hb, hc⟩
    refine ⟨weatherEvent render deliver a, ?_, weatherEvent_recipient render deliver a⟩
    apply List.mem_filterMap.mpr
    refine ⟨a, ?_, weatherStep_eq_of_coordinates render deliver a hc⟩
    exact List.mem_filter.mpr ⟨hmem, by simp [hw, hb]⟩

/-- Witness for C6: one eligible and one ineligible account. -/
theorem weather_job_eligibility_witness :
    (∃ e ∈ sendWeatherUpdates (fun _ => Except.ok "forecast") (fun _ _ => true)
        [Account.mk 1 true false (some (1, 2)), Account.mk 2 false false none],
      e.recipient = (Account.mk 1 true false (some (1, 2))).telegramId)
    ↔ ((Account.mk 1 true false (some (1, 2))).weatherNotif = true
        ∧ (Account.mk 1 true false (some (1, 2))).isBanned = false
        ∧ (Account.mk 1 true false (some (1, 2))).coordinates.isSome = true) :=
  weather_job_eligibility (fun _ => Except.ok "forecast") (fun _ _ => true)
    [Account.mk 1 true false (some (1, 2)), Account.mk 2 false false none]
    (Account.mk 1 true false (some (1, 2)))
    (by decide) (by decide) (fun u => ⟨"forecast", rfl⟩)

/-- C7: one weather-job run over the `M` eligible accounts in which the
`K < M` per-recipient deliveries forced to fail are caught: the log holds
one event per eligible recipient in query-result order (the batch runs to
completion), with exactly `M − K` successful sends and `K` logged
failures. -/
theorem weather_job_batch_isolation (render : Account → Except String String)
    (deliver : Nat → String → Bool) (users : List Account)
    (_hrender : ∀ u, ∃ m, render u = Except.ok m)
    (hK : (eligibleWeatherUsers users).countP (deliveryFails render deliver)
      < (eligibleWeatherUsers users).length) :
    (sendWeatherUpdates render deliver users).length
      = (eligibleWeatherUsers users).length
    ∧ (sendWeatherUpdates render deliver users).map SendEvent.recipient
      = (eligibleWeatherUsers users).map (fun u => u.telegramId)
    ∧ (sendWeatherUpdates render deliver users).countP SendEvent.isSent
      = (eligibleWeatherUsers users).length
        - (eligibleWeatherUsers users).countP (deliveryFails render deliver)
    ∧ (sendWeatherUpdates render deliver users).countP (fun e => !(e.isSent))
      = (eligibleWeatherUsers users).countP (deliveryFails render deliver) := by
  rw [sendWeatherUpdates_eq_map]
  refine ⟨List.length_map _ _, ?_, ?_, ?_⟩
  · rw [List.map_map]
    exact List.map_congr_left (fun u _ => weatherEvent_recipient render deliver u)
  · rw [List.countP_map]
    have h1 : (eligibleWeatherUsers users).countP
        (SendEvent.isSent ∘ weatherEvent render deliver)
        = (eligibleWeatherUsers users).countP
          (fun u => !(deliveryFails render deliver u)) :=
      List.countP_congr (fun u _ => by
        simp only [Function.comp_apply, weatherEvent_isSent])
    rw [h1]
    have h2 : (eligibleWeatherUsers users).length
        = (eligibleWeatherUsers users).countP (deliveryFails render deliver)
          + (eligibleWeatherUsers users).countP
            (fun u => ¬(deliveryFails render deliver u = true)) :=
      List.length_eq_countP_add_countP _ _
    have h3 : (eligibleWeatherUsers users).countP
        (fun u => !(deliveryFails render deliver u))
        = (eligibleWeatherUsers users).countP
          (fun u => ¬(deliveryFails render deliver u = true)) :=
      List.countP_congr (fun u _ => by simp)
    omega
  · rw [List.countP_map]
    exact List.countP_congr (fun u _ => by
      simp only [Function.comp_apply, weatherEvent_isSent, Bool.not_not])

/-- Witness for C7: three eligible accounts, one forced delivery failure. -/
theorem weather_job_batch_isolation_witness :
    (sendWeatherUpdates (fun _ => Except.ok "forecast") (fun i _ => decide (i ≠ 2))
        [Account.mk 1 true false (some (1, 2)), Account.mk 2 true false (some (1, 2)),
         Account.mk 3 true false (some (1, 2))]).length
      = (eligibleWeatherUsers
        [Account.mk 1 true false (some (1, 2)), Account.mk 2 true false (some (1, 2)),
         Account.mk 3 true false (some (1, 2))]).length
    ∧ (sendWeatherUpdates (fun _ => Except.ok "forecast") (fun i _ => decide (i ≠ 2))
        [Account.mk 1 true false (some (1, 2)), Account.mk 2 true false (some (1, 2)),
         Account.mk 3 true false (some (1, 2))]).map SendEvent.recipient
      = (eligibleWeatherUsers
        [Account.mk 1 true false (some (1, 2)), Account.mk 2 true false (some (1, 2)),
         Account.mk 3 true false (some (1, 2))]).map (fun u => u.telegramId)
    ∧ (sendWeatherUpdates (fun _ => Except.ok "forecast") (fun i _ => decide (i ≠ 2))
        [Account.mk 1 true false (some (1, 2)), Account.mk 2 true false (some (1, 2)),
         Account.mk 3 true false (some (1, 2))]).countP SendEvent.isSent
      = (eligibleWeatherUsers
        [Account.mk 1 true false (some (1, 2)), Account.mk 2 true false (some (1, 2)),
         Account.mk 3 true false (some (1, 2))]).length
        - (eligibleWeatherUsers
          [Account.mk 1 true false (some (1, 2)), Account.mk 2 true false (some (1, 2)),
           Account.mk 3 true false (some (1, 2))]).countP
            (deliveryFails (fun _ => Except.ok "forecast") (fun i _ => decide (i ≠ 2)))
    ∧ (sendWeatherUpdates (fun _ => Except.ok "forecast") (fun i _ => decide (i ≠ 2))
        [Account.mk 1 true false (some (1, 2)), Account.mk 2 true false (some (1, 2)),
         Account.mk 3 true false (some (1, 2))]).countP (fun e => !(e.isSent))
      = (eligibleWeatherUsers
        [Account.mk 1 true false (some (1, 2)), Account.mk 2 true false (some (1, 2)),
         Account.mk 3 true false (some (1, 2))]).countP
          (deliveryFails (fun _ => Except.ok "forecast") (fun i _ => decide (i ≠ 2))) :=
  weather_job_batch_isolation (fun _ => Except.ok "forecast") (fun i _ => decide (i ≠ 2))
    [Account.mk 1 true false (some (1, 2)), Account.mk 2 true false (some (1, 2)),
     Account.mk 3 true false (some (1, 2))]
    (fun u => ⟨"forecast", rfl⟩) (by decide)


/-! ### Rate Governor (`src/middleware/rateLimiter.js`) -/

structure BucketConfig where
  points : Nat
  durationMs : Nat
deriving DecidableEq

structure BucketState where
  used : Nat
  windowStart : Nat
deriving DecidableEq

/-- Modelled from the spec: the token bucket backing `consume` is the
`rate-limiter-flexible` `RateLimiterMemory`, an npm dependency whose code
is not part of this repository — only its configuration (`points`,
`duration` in seconds, here `durationMs` in milliseconds) and its call
sites are.  Per the spec's Rate Governor contract (capacity `N` per window
`D`, `Denied(retryAfterSeconds)` reporting the time before the next
point), a bucket admits `points` consumes per window of `durationMs`
milliseconds starting at the first consume; a denial reports the
milliseconds until the window resets (`msBeforeNext`).
Returns `((allowed, msBeforeNext), newState)`. -/
def consumeRaw (cfg : BucketConfig) (now : Nat) :
    Option BucketState → (Bool × Nat) × BucketState
  | none =>
    if 0 < cfg.points then ((true, 0), (BucketState.mk 1 now))
    else ((false, cfg.durationMs), (BucketState.mk 0 now))
  | some s =>
    if s.windowStart + cfg.durationMs ≤ now then
      if 0 < cfg.points then ((true, 0), (BucketState.mk 1 now))
      else ((false, cfg.durationMs), (BucketState.mk 0 now))
    else if s.used < cfg.points then ((true, 0), (BucketState.mk (s.used + 1) s.windowStart))
    else ((false, s.windowStart + cfg.durationMs - now), s)

inductive RateCheck where
  | allowed
  | denied (remainingTime : Nat) (message : String)
deriving DecidableEq

/-- JS `Math.round(ms / 1000)` on non-negative input. -/
def jsRoundSeconds (ms : Nat) : Nat := (ms + 500) / 1000

/-- The shape shared by `checkBotRateLimit`, `checkMessageRateLimit` and
`checkPremiumRateLimit`: consume; on denial report
`Math.round(msBeforeNext / 1000)` and a user-facing wait message built from
it. -/
def checkRateLimit (cfg : BucketConfig) (waitMessage : Nat → String)
    (now : Nat) (st : Option BucketState) : RateCheck × BucketState :=
  if (consumeRaw cfg now st).1.1 then (RateCheck.allowed, (consumeRaw cfg now st).2)
  else
    (RateCheck.denied (jsRoundSeconds (consumeRaw cfg now st).1.2)
      (waitMessage (jsRoundSeconds (consumeRaw cfg now st).1.2)),
     (consumeRaw cfg now st).2)

/-- `apiLimiter`: 100 points per 15 minutes (defaults of the env-tunable
configuration). -/
def apiLimiterConfig : BucketConfig := ⟨100, 15 * 60 * 1000⟩

/-- `botLimiter`: 30 commands per minute. -/
def botLimiterConfig : BucketConfig := ⟨30, 60 * 1000⟩

/-- `messageLimiter`: 60 messages per minute. -/
def messageLimiterConfig : BucketConfig := ⟨60, 60 * 1000⟩

/-- `premiumLimiter`: 200 points per 15 minutes. -/
def premiumLimiterConfig : BucketConfig := ⟨200, 15 * 60 * 1000⟩

def botWaitMessage (remainingTime : Nat) : String :=
  "You're sending commands too quickly! Please wait " ++ toString remainingTime
    ++ " seconds before trying again."

/-- `checkBotRateLimit userId`. -/
def checkBotRateLimit (now : Nat) (st : Option BucketState) :
    RateCheck × BucketState :=
  checkRateLimit botLimiterConfig botWaitMessage now st

/-- Run a sequence of consume calls at the given timestamps, threading the
bucket state; returns the `(allowed, msBeforeNext)` outcomes in order and
the final state. -/
def consumeSeq (cfg : BucketConfig) :
    Option BucketState → List Nat → List (Bool × Nat) × Option BucketState
  | st, [] => ([], st)
  | st, t :: ts =>
    ((consumeRaw cfg t st).1 :: (consumeSeq cfg (some (consumeRaw cfg t st).2) ts).1,
     (consumeSeq cfg (some (consumeRaw cfg t st).2) ts).2)

theorem consumeSeq_within_window (cfg : BucketConfig) (t0 : Nat) :
    ∀ (ts : List Nat) (k : Nat), k + ts.length ≤ cfg.points →
      (∀ t ∈ ts, t < t0 + cfg.durationMs) →
      consumeSeq cfg (some (BucketState.mk k t0)) ts
        = (ts.map (fun _ => (true, 0)), some ⟨k + ts.length, t0⟩)
  | [], k, _, _ => by simp [consumeSeq]
  | t :: ts, k, hlen, hwin => by
    have hnotexp : ¬(t0 + cfg.durationMs ≤ t) := by
      have := hwin t (List.mem_cons_self t ts)
      omega
    have hused : k < cfg.points := by
      simp only [List.length_cons] at hlen
      omega
    have hstep : consumeRaw cfg t (some (BucketState.mk k t0)) = ((true, 0), (BucketState.mk (k + 1) t0)) := by
      show (if t0 + cfg.durationMs ≤ t then
          if 0 < cfg.points then ((true, 0), (BucketState.mk 1 t))
          else ((false, cfg.durationMs), (BucketState.mk 0 t))
        else if k < cfg.points then ((true, 0), (BucketState.mk (k + 1) t0))
        else ((false, t0 + cfg.durationMs - t), (BucketState.mk k t0))) = ((true, 0), (BucketState.mk (k + 1) t0))
      rw [if_neg hnotexp, if_pos hused]
    have ih := consumeSeq_within_window cfg t0 ts (k + 1)
      (by simp only [List.length_cons] at hlen; omega)
      (fun x hx => hwin x (List.mem_cons_of_mem t hx))
    show ((consumeRaw cfg t (some (BucketState.mk k t0))).1
        :: (consumeSeq cfg (some (consumeRaw cfg t (some (BucketState.mk k t0))).2) ts).1,
      (consumeSeq cfg (some (consumeRaw cfg t (some (BucketState.mk k t0))).2) ts).2) = _
    rw [hstep, ih]
    have heq : k + 1 + ts.length = k + (ts.length + 1) := by omega
    simp [heq]

/-- C8 (amended): for any bucket with capacity `N = cfg.points > 0` and
window `cfg.durationMs`, starting fresh: `N` consume calls within the
window (the first at `t0`) all succeed; a further consume at `textra`
within the same window is denied with `msBeforeNext > 0` milliseconds
remaining, reported through the wrapper as
`retryAfterSeconds = round(msBeforeNext/1000)` — which is positive exactly
when at least 500 ms of the window remain, and 0 otherwise; and a consume
after the window has fully elapsed succeeds again (refill). -/
theorem rate_governor_window (cfg : BucketConfig) (w : Nat → String)
    (t0 : Nat) (rest : List Nat) (textra tlate : Nat)
    (hpts : 0 < cfg.points)
    (hlen : rest.length + 1 = cfg.points)
    (hwin0 : ∀ t ∈ rest, t < t0 + cfg.durationMs)
    (hextra : textra < t0 + cfg.durationMs)
    (hlate : t0 + cfg.durationMs ≤ tlate) :
    (consumeSeq cfg none (t0 :: rest)).fst = (t0 :: rest).map (fun _ => (true, 0))
    ∧ (consumeSeq cfg (consumeSeq cfg none (t0 :: rest)).snd [textra]).fst
      = [(false, t0 + cfg.durationMs - textra)]
    ∧ 0 < t0 + cfg.durationMs - textra
    ∧ (checkRateLimit cfg w textra (consumeSeq cfg none (t0 :: rest)).snd).fst
      = RateCheck.denied (jsRoundSeconds (t0 + cfg.durationMs - textra))
          (w (jsRoundSeconds (t0 + cfg.durationMs - textra)))
    ∧ (0 < jsRoundSeconds (t0 + cfg.durationMs - textra)
        ↔ 500 ≤ t0 + cfg.durationMs - textra)
    ∧ (consumeSeq cfg (consumeSeq cfg none (t0 :: rest)).snd [tlate]).fst
      = [(true, 0)] := by
  have hfirst : consumeRaw cfg t0 none = ((true, 0), (BucketState.mk 1 t0)) := by
    show (if 0 < cfg.points then ((true, 0), (BucketState.mk 1 t0))
      else ((false, cfg.durationMs), (BucketState.mk 0 t0))) = ((true, 0), (BucketState.mk 1 t0))
    rw [if_pos hpts]
  have hrun : consumeSeq cfg none (t0 :: rest)
      = ((t0 :: rest).map (fun _ => (true, 0)), some (BucketState.mk cfg.points t0)) := by
    show ((consumeRaw cfg t0 none).1
        :: (consumeSeq cfg (some (consumeRaw cfg t0 none).2) rest).1,
      (consumeSeq cfg (some (consumeRaw cfg t0 none).2) rest).2) = _
    rw [hfirst]
    rw [consumeSeq_within_window cfg t0 rest 1 (by omega) hwin0]
    simp only [List.map_cons]
    have heq : 1 + rest.length = cfg.points := by omega
    rw [heq]
  have hdenied : consumeRaw cfg textra (some (BucketState.mk cfg.points t0))
      = ((false, t0 + cfg.durationMs - textra), (BucketState.mk cfg.points t0)) := by
    show (if t0 + cfg.durationMs ≤ textra then
        if 0 < cfg.points then ((true, 0), (BucketState.mk 1 textra))
        else ((false, cfg.durationMs), (BucketState.mk 0 textra))
      else if cfg.points < cfg.points then ((true, 0), (BucketState.mk (cfg.points + 1) t0))
      else ((false, t0 + cfg.durationMs - textra), (BucketState.mk cfg.points t0))) = _
    rw [if_neg (by omega : ¬(t0 + cfg.durationMs ≤ textra)),
      if_neg (by omega : ¬(cfg.points < cfg.points))]
  have hlateok : consumeRaw cfg tlate (some (BucketState.mk cfg.points t0))
      = ((true, 0), (BucketState.mk 1 tlate)) := by
    show (if t0 + cfg.durationMs ≤ tlate then
        if 0 < cfg.points then ((true, 0), (BucketState.mk 1 tlate))
        else ((false, cfg.durationMs), (BucketState.mk 0 tlate))
      else if cfg.points < cfg.points then ((true, 0), (BucketState.mk (cfg.points + 1) t0))
      else ((false, t0 + cfg.durationMs - tlate), (BucketState.mk cfg.points t0))) = _
    rw [if_pos hlate, if_pos hpts]
  refine ⟨by rw [hrun], ?_, by omega, ?_, ?_, ?_⟩
  · rw [hrun]
    show ((consumeRaw cfg textra (some (BucketState.mk cfg.points t0))).1
        :: (consumeSeq cfg (some (consumeRaw cfg textra (some (BucketState.mk cfg.points t0))).2) []).1,
      (consumeSeq cfg (some (consumeRaw cfg textra (some (BucketState.mk cfg.points t0))).2) []).2).1
      = [(false, t0 + cfg.durationMs - textra)]
    rw [hdenied]
    rfl
  · rw [hrun]
    show (checkRateLimit cfg w textra (some (BucketState.mk cfg.points t0))).fst = _
    unfold checkRateLimit
    rw [hdenied]
    rfl
  · unfold jsRoundSeconds
    omega
  · rw [hrun]
    show ((consumeRaw cfg tlate (some (BucketState.mk cfg.points t0))).1
        :: (consumeSeq cfg (some (consumeRaw cfg tlate (some (BucketState.mk cfg.points t0))).2) []).1,
      (consumeSeq cfg (some (consumeRaw cfg tlate (some (BucketState.mk cfg.points t0))).2) []).2).1
      = [(true, 0)]
    rw [hlateok]
    rfl

/-- Witness for the amended C8 on a small concrete bucket (capacity 2,
window 1000 ms). -/
theorem rate_governor_window_witness :
    (consumeSeq (BucketConfig.mk 2 1000) none [0, 10]).fst
      = [0, 10].map (fun _ => ((true : Bool), (0 : Nat)))
    ∧ (consumeSeq (BucketConfig.mk 2 1000)
        (consumeSeq (BucketConfig.mk 2 1000) none [0, 10]).snd [400]).fst
      = [(false, 0 + (BucketConfig.mk 2 1000).durationMs - 400)]
    ∧ 0 < 0 + (BucketConfig.mk 2 1000).durationMs - 400
    ∧ (checkRateLimit (BucketConfig.mk 2 1000) botWaitMessage 400
        (consumeSeq (BucketConfig.mk 2 1000) none [0, 10]).snd).fst
      = RateCheck.denied
          (jsRoundSeconds (0 + (BucketConfig.mk 2 1000).durationMs - 400))
          (botWaitMessage (jsRoundSeconds (0 + (BucketConfig.mk 2 1000).durationMs - 400)))
    ∧ (0 < jsRoundSeconds (0 + (BucketConfig.mk 2 1000).durationMs - 400)
        ↔ 500 ≤ 0 + (BucketConfig.mk 2 1000).durationMs - 400)
    ∧ (consumeSeq (BucketConfig.mk 2 1000)
        (consumeSeq (BucketConfig.mk 2 1000) none [0, 10]).snd [5000]).fst
      = [(true, 0)] :=
  rate_governor_window (BucketConfig.mk 2 1000) botWaitMessage 0 [10] 400 5000
    (by decide) (by decide) (by decide) (by decide) (by decide)

/-- C8 counterexample: with the bot-command bucket (30 per 60 s) and a
fresh identity, 30 consumes at t = 0 all succeed; a 31st consume at
t = 59 900 ms is still within the same window and is denied, but the
`retryAfterSeconds` hint is `Math.round(100 / 1000) = 0` — not positive,
contradicting the claim as stated. -/
theorem rate_governor_retry_hint_zero :
    (consumeSeq botLimiterConfig none (List.replicate 30 0)).fst
      = List.replicate 30 (true, 0)
    ∧ 59900 < 0 + botLimiterConfig.durationMs
    ∧ (checkBotRateLimit 59900
        (consumeSeq botLimiterConfig none (List.replicate 30 0)).snd).fst
      = RateCheck.denied 0 (botWaitMessage 0)
    ∧ ¬(0 < (0 : Nat)) := by decide

/-! ### Telegram authentication (`router.post('/telegram')`, auth route)

`validateTelegramLogin` performs an HMAC hash check against the bot token
(external crypto), embedded as the boolean collaborator `validate`;
`generateToken` signs a JWT, embedded as `genToken`.  The User document
store is embedded as a list of `StoredUser`; `user.save()` /
`user.updateLastInteraction()` write the updated document back. -/

structure StoredUser where
  telegramId : Nat
  username : Option String
  firstName : Option String
  lastName : Option String
  isBanned : Bool
  banReason : Option String
  lastInteraction : Nat
deriving DecidableEq

structure AuthData where
  id : Nat
  username : Option String
  firstName : Option String
  lastName : Option String
deriving DecidableEq

inductive AuthResponse where
  | success (token : String)
  | banned (banReason : Option String)
  | invalid (message : String)
deriving DecidableEq

/-- The field sync of the existing-user branch: each of `username`,
`firstName`, `lastName` that differs is overwritten with the incoming
value (net effect: the profile fields take the values from `authData`). -/
def syncUser (u : StoredUser) (a : AuthData) : StoredUser :=
  { u with username := a.username, firstName := a.firstName, lastName := a.lastName }

/-- `user.updateLastInteraction()` (User model): sets
`botData.lastInteraction` (and `analytics.lastActiveTime`) to now and
saves the document. -/
def updateLastInteraction (now : Nat) (u : StoredUser) : StoredUser :=
  { u with lastInteraction := now }

/-- Persist an updated user document (single-document upsert by the
`telegramId` natural key). -/
def updateStore (store : List StoredUser) (u : StoredUser) : List StoredUser :=
  store.map (fun v => if v.telegramId == u.telegramId then u else v)

/-- `router.post('/telegram')`: validate the login payload; create the user
if new (schema defaults: not banned), otherwise sync the profile fields and
run `updateLastInteraction()` — both persisted BEFORE the `isBanned` check;
then reject banned accounts with 403, else issue a JWT. -/
def telegramAuthHandler (validate : AuthData → Bool) (genToken : StoredUser → String)
    (now : Nat) (store : List StoredUser) (a : AuthData) :
    AuthResponse × List StoredUser :=
  if validate a then
    match store.find? (fun v => v.telegramId == a.id) with
    | none =>
      if (StoredUser.mk a.id a.username a.firstName a.lastName false none now).isBanned then
        (AuthResponse.banned
          (StoredUser.mk a.id a.username a.firstName a.lastName false none now).banReason,
         store ++ [StoredUser.mk a.id a.username a.firstName a.lastName false none now])
      else
        (AuthResponse.success
          (genToken (StoredUser.mk a.id a.username a.firstName a.lastName false none now)),
         store ++ [StoredUser.mk a.id a.username a.firstName a.lastName false none now])
    | some u =>
      if (updateLastInteraction now (syncUser u a)).isBanned then
        (AuthResponse.banned (updateLastInteraction now (syncUser u a)).banReason,
         updateStore store (updateLastInteraction now (syncUser u a)))
      else
        (AuthResponse.success (genToken (updateLastInteraction now (syncUser u a))),
         updateStore store (updateLastInteraction now (syncUser u a)))
  else (AuthResponse.invalid "Invalid authentication data", store)

/-- C9 counterexample: an existing banned account (id 7) authenticates with
a changed username; the request IS rejected with 403, but the persisted
store has changed before the rejection — the username was synced and
`lastInteraction` advanced from 0 to 100 — so a side effect occurred. -/
theorem telegram_auth_banned_side_effect :
    (telegramAuthHandler (fun _ => true) (fun _ => "jwt") 100
        [StoredUser.mk 7 (some "olduser") (some "Ann") none true (some "spam") 0]
        (AuthData.mk 7 (some "newuser") (some "Ann") none)).fst
      = AuthResponse.banned (some "spam")
    ∧ (telegramAuthHandler (fun _ => true) (fun _ => "jwt") 100
        [StoredUser.mk 7 (some "olduser") (some "Ann") none true (some "spam") 0]
        (AuthData.mk 7 (some "newuser") (some "Ann") none)).snd
      = [StoredUser.mk 7 (some "newuser") (some "Ann") none true (some "spam") 100]
    ∧ [StoredUser.mk 7 (some "newuser") (some "Ann") none true (some "spam") 100]
      ≠ [StoredUser.mk 7 (some "olduser") (some "Ann") none true (some "spam") 0] := by
  decide

/-- C9 (amended): a banned existing account is rejected with 403 carrying
the ban reason and no token is ever issued to it, but the rejection happens
only AFTER the profile-field sync and the `lastInteraction` touch have been
persisted; all other accounts' documents are untouched. -/
theorem telegram_auth_banned_rejected_after_touch (validate : AuthData → Bool)
    (genToken : StoredUser → String) (now : Nat) (store : List StoredUser)
    (a : AuthData) (u : StoredUser)
    (hv : validate a = true)
    (hfind : store.find? (fun v => v.telegramId == a.id) = some u)
    (hban : u.isBanned = true) :
    (telegramAuthHandler validate genToken now store a).fst
      = AuthResponse.banned u.banReason
    ∧ (∀ tok, (telegramAuthHandler validate genToken now store a).fst
        ≠ AuthResponse.success tok)
    ∧ (telegramAuthHandler validate genToken now store a).snd
      = updateStore store (updateLastInteraction now (syncUser u a))
    ∧ (∀ v ∈ store, v.telegramId ≠ u.telegramId →
        v ∈ (telegramAuthHandler validate genToken now store a).snd) := by
  have hred : telegramAuthHandler validate genToken now store a
      = (AuthResponse.banned u.banReason,
         updateStore store (updateLastInteraction now (syncUser u a))) := by
    unfold telegramAuthHandler
    rw [hv, hfind]
    have hb2 : (updateLastInteraction now (syncUser u a)).isBanned = true := hban
    simp only [hb2, if_true]
    rfl
  refine ⟨by rw [hred], ?_, by rw [hred], ?_⟩
  · intro tok h
    rw [hred] at h
    exact AuthResponse.noConfusion h
  · intro v hvmem hvne
    rw [hred]
    show v ∈ updateStore store (updateLastInteraction now (syncUser u a))
    unfold updateStore
    have hid : (updateLastInteraction now (syncUser u a)).telegramId = u.telegramId := rfl
    refine List.mem_map.mpr ⟨v, hvmem, ?_⟩
    rw [hid]
    rw [if_neg (by simpa using hvne)]

/-- Witness for the amended C9 at the counterexample input. -/
theorem telegram_auth_banned_rejected_after_touch_witness :
    (telegramAuthHandler (fun _ => true) (fun _ => "jwt") 100
        [StoredUser.mk 7 (some "olduser") (some "Ann") none true (some "spam") 0]
        (AuthData.mk 7 (some "newuser") (some "Ann") none)).fst
      = AuthResponse.banned (some "spam")
    ∧ (∀ tok, (telegramAuthHandler (fun _ => true) (fun _ => "jwt") 100
        [StoredUser.mk 7 (some "olduser") (some "Ann") none true (some "spam") 0]
        (AuthData.mk 7 (some "newuser") (some "Ann") none)).fst
        ≠ AuthResponse.success tok)
    ∧ (telegramAuthHandler (fun _ => true) (fun _ => "jwt") 100
        [StoredUser.mk 7 (some "olduser") (some "Ann") none true (some "spam") 0]
        (AuthData.mk 7 (some "newuser") (some "Ann") none)).snd
      = updateStore [StoredUser.mk 7 (some "olduser") (some "Ann") none true (some "spam") 0]
          (updateLastInteraction 100
            (syncUser (StoredUser.mk 7 (some "olduser") (some "Ann") none true (some "spam") 0)
              (AuthData.mk 7 (some "newuser") (some "Ann") none)))
    ∧ (∀ v ∈ [StoredUser.mk 7 (some "olduser") (some "Ann") none true (some "spam") 0],
        v.telegramId ≠ (StoredUser.mk 7 (some "olduser") (some "Ann") none true
          (some "spam") 0).telegramId →
        v ∈ (telegramAuthHandler (fun _ => true) (fun _ => "jwt") 100
          [StoredUser.mk 7 (some "olduser") (some "Ann") none true (some "spam") 0]
          (AuthData.mk 7 (some "newuser") (some "Ann") none)).snd) :=
  telegram_auth_banned_rejected_after_touch (fun _ => true) (fun _ => "jwt") 100
    [StoredUser.mk 7 (some "olduser") (some "Ann") none true (some "spam") 0]
    (AuthData.mk 7 (some "newuser") (some "Ann") none)
    (StoredUser.mk 7 (some "olduser") (some "Ann") none true (some "spam") 0)
    rfl (by decide) rfl

/-! ### Adaptive rate limiter (`AdaptiveRateLimiter`)

JS numbers are embedded as exact rationals; `this.userScores` (a JS `Map`)
is embedded as an association list. -/

/-- `this.trustedThreshold = 0.3`. -/
def trustedThreshold : ℚ := 3/10

/-- `this.suspiciousThreshold = 0.7`. -/
def suspiciousThreshold : ℚ := 7/10

/-- `calculateTrustScore(userId, messageCount, commandCount, reportCount)`:
`max(0, 1 - (messageRatio * 0.5 + reportRatio * 2))` with
`messageRatio = commandCount / max(messageCount, 1)` and
`reportRatio = reportCount / max(messageCount, 1)`. -/
def calculateTrustScore (messageCount commandCount reportCount : ℚ) : ℚ :=
  max 0 (1 - (commandCount / max messageCount 1 * (1/2)
    + reportCount / max messageCount 1 * 2))

/-- `this.userScores.set(userId, score)`: replace or append. -/
def setScore (m : List (Nat × ℚ)) (uid : Nat) (s : ℚ) : List (Nat × ℚ) :=
  if m.any (fun p => p.1 == uid) then
    m.map (fun p => if p.1 == uid then (uid, s) else p)
  else m ++ [(uid, s)]

/-- JS `this.userScores.get(userId) || dflt`: an absent entry AND a stored
score of exactly 0 (JS falsy) both yield the default. -/
def jsGetOr (m : List (Nat × ℚ)) (uid : Nat) (dflt : ℚ) : ℚ :=
  match m.find? (fun p => p.1 == uid) with
  | some p => if p.2 = 0 then dflt else p.2
  | none => dflt

/-- `shouldBlock(userId)`: `(userScores.get(userId) || 0.5) < 0.1`. -/
def shouldBlock (m : List (Nat × ℚ)) (uid : Nat) : Bool :=
  decide (jsGetOr m uid (1/2) < 1/10)

/-- `getAdjustedLimit(userId, baseLimit = 100)`. -/
def getAdjustedLimit (m : List (Nat × ℚ)) (uid : Nat) (baseLimit : ℚ) : ℚ :=
  if jsGetOr m uid (1/2) < trustedThreshold then ((⌊baseLimit * (1/2)⌋ : ℤ) : ℚ)
  else if jsGetOr m uid (1/2) > suspiciousThreshold then ((⌊baseLimit * (3/2)⌋ : ℤ) : ℚ)
  else baseLimit

/-- The states of `userScores` reachable by `calculateTrustScore` calls
with non-negative counters (the only writer of the map). -/
inductive ReachableScores : List (Nat × ℚ) → Prop where
  | empty : ReachableScores []
  | step (m : List (Nat × ℚ)) (uid : Nat) (mc cc rc : ℚ) :
      ReachableScores m → 0 ≤ mc → 0 ≤ cc → 0 ≤ rc →
      ReachableScores (setScore m uid (calculateTrustScore mc cc rc))

theorem mem_setScore {m : List (Nat × ℚ)} {uid : Nat} {s : ℚ} {p : Nat × ℚ}
    (h : p ∈ setScore m uid s) : p.2 = s ∨ p ∈ m := by
  unfold setScore at h
  by_cases hany : m.any (fun q => q.1 == uid) = true
  · rw [if_pos hany] at h
    rcases List.mem_map.mp h with ⟨q, hq, hpq⟩
    by_cases hqi : (q.1 == uid) = true
    · rw [if_pos hqi] at hpq
      left
      rw [← hpq]
    · rw [if_neg hqi] at hpq
      right
      rw [← hpq]
      exact hq
  · rw [if_neg hany] at h
    rcases List.mem_append.mp h with h | h
    · right; exact h
    · left
      rw [List.mem_singleton.mp h]

theorem calculateTrustScore_unit (mc cc rc : ℚ) (_hmc : 0 ≤ mc) (hcc : 0 ≤ cc)
    (hrc : 0 ≤ rc) :
    0 ≤ calculateTrustScore mc cc rc ∧ calculateTrustScore mc cc rc ≤ 1 := by
  have hden : (0:ℚ) < max mc 1 := lt_of_lt_of_le one_pos (le_max_right mc 1)
  have h1 : 0 ≤ cc / max mc 1 := div_nonneg hcc (le_of_lt hden)
  have h2 : 0 ≤ rc / max mc 1 := div_nonneg hrc (le_of_lt hden)
  have h3 : 0 ≤ cc / max mc 1 * (1/2) + rc / max mc 1 * 2 := by
    have ha := mul_nonneg h1 (by norm_num : (0:ℚ) ≤ 1/2)
    have hb := mul_nonneg h2 (by norm_num : (0:ℚ) ≤ 2)
    linarith
  unfold calculateTrustScore
  constructor
  · exact le_max_left 0 _
  · apply max_le (by norm_num)
    linarith

/-- C10 (amended): `calculateTrustScore` maps non-negative counters into
`[0, 1]` and every score in a reachable `userScores` map lies in `[0, 1]`;
on a reachable map, `shouldBlock` is true exactly when a stored score is
POSITIVE and below 0.1 — a stored score of exactly 0, and an absent entry,
fall back to the 0.5 default through the JS `||` and do not block; and
`getAdjustedLimit` always returns one of `floor(0.5·base)`, `base`,
`floor(1.5·base)`. -/
theorem adaptive_limiter_props :
    (∀ mc cc rc : ℚ, 0 ≤ mc → 0 ≤ cc → 0 ≤ rc →
      0 ≤ calculateTrustScore mc cc rc ∧ calculateTrustScore mc cc rc ≤ 1)
    ∧ (∀ m, ReachableScores m → ∀ p ∈ m, 0 ≤ p.2 ∧ p.2 ≤ 1)
    ∧ (∀ m, ReachableScores m → ∀ uid,
        (shouldBlock m uid = true
          ↔ ∃ s, (m.find? (fun p => p.1 == uid)).map Prod.snd = some s
              ∧ 0 < s ∧ s < 1/10))
    ∧ (∀ m uid baseLimit, getAdjustedLimit m uid baseLimit = ((⌊baseLimit * (1/2)⌋ : ℤ) : ℚ)
        ∨ getAdjustedLimit m uid baseLimit = baseLimit
        ∨ getAdjustedLimit m uid baseLimit = ((⌊baseLimit * (3/2)⌋ : ℤ) : ℚ)) := by
  have hinv : ∀ m, ReachableScores m → ∀ p ∈ m, 0 ≤ p.2 ∧ p.2 ≤ 1 := by
    intro m h
    induction h with
    | empty => intro p hp; exact absurd hp (List.not_mem_nil p)
    | step m uid mc cc rc hr hmc hcc hrc ih =>
      intro p hp
      rcases mem_setScore hp with hps | hpm
      · rw [hps]
        exact calculateTrustScore_unit mc cc rc hmc hcc hrc
      · exact ih p hpm
  refine ⟨calculateTrustScore_unit, hinv, ?_, ?_⟩
  · intro m hm uid
    cases hf : m.find? (fun p => p.1 == uid) with
    | none =>
      have hget : jsGetOr m uid (1/2) = 1/2 := by
        unfold jsGetOr
        rw [hf]
      have hsb : shouldBlock m uid = false := by
        unfold shouldBlock
        rw [hget]
        apply decide_eq_false
        norm_num
      rw [hsb]
      constructor
      · intro h
        exact absurd h (by simp)
      · rintro ⟨s, hs, _⟩
        exact Option.noConfusion hs
    | some q =>
      have hq2 : 0 ≤ q.2 := (hinv m hm q (List.mem_of_find?_eq_some hf)).1
      have hget : jsGetOr m uid (1/2) = if q.2 = 0 then (1:ℚ)/2 else q.2 := by
        unfold jsGetOr
        rw [hf]
      show shouldBlock m uid = true ↔ ∃ s, some q.2 = some s ∧ 0 < s ∧ s < 1/10
      by_cases hz : q.2 = 0
      · have hite : (if q.2 = 0 then (1:ℚ)/2 else q.2) = 1/2 := if_pos hz
        have hsb : shouldBlock m uid = false := by
          unfold shouldBlock
          rw [hget, hite]
          apply decide_eq_false
          norm_num
        rw [hsb]
        constructor
        · intro h
          exact absurd h (by simp)
        · rintro ⟨s, hs, hpos, _⟩
          have hqs : q.2 = s := (Option.some.injEq _ _).mp hs
          rw [← hqs, hz] at hpos
          exact absurd hpos (lt_irrefl 0)
      · have hite : (if q.2 = 0 then (1:ℚ)/2 else q.2) = q.2 := if_neg hz
        have hsb : shouldBlock m uid = decide (q.2 < 1/10) := by
          unfold shouldBlock
          rw [hget, hite]
        rw [hsb]
        constructor
        · intro h
          exact ⟨q.2, rfl, lt_of_le_of_ne hq2 (Ne.symm hz), of_decide_eq_true h⟩
        · rintro ⟨s, hs, _, hlt⟩
          have hqs : q.2 = s := (Option.some.injEq _ _).mp hs
          rw [hqs]
          exact decide_eq_true hlt
  · intro m uid baseLimit
    unfold getAdjustedLimit
    by_cases h1 : jsGetOr m uid (1/2) < trustedThreshold
    · rw [if_pos h1]
      exact Or.inl rfl
    · rw [if_neg h1]
      by_cases h2 : jsGetOr m uid (1/2) > suspiciousThreshold
      · rw [if_pos h2]
        exact Or.inr (Or.inr rfl)
      · rw [if_neg h2]
        exact Or.inr (Or.inl rfl)

/-- Witness for the amended C10 at concrete inputs. -/
theorem adaptive_limiter_props_witness :
    (0 ≤ calculateTrustScore 0 0 0 ∧ calculateTrustScore 0 0 0 ≤ 1)
    ∧ (∀ p ∈ ([] : List (Nat × ℚ)), 0 ≤ p.2 ∧ p.2 ≤ 1)
    ∧ (shouldBlock [] 7 = true
        ↔ ∃ s, ((([] : List (Nat × ℚ)).find? (fun p => p.1 == 7)).map Prod.snd = some s
            ∧ 0 < s ∧ s < 1/10))
    ∧ (getAdjustedLimit [] 7 100 = ((⌊(100:ℚ) * (1/2)⌋ : ℤ) : ℚ)
        ∨ getAdjustedLimit [] 7 100 = 100
        ∨ getAdjustedLimit [] 7 100 = ((⌊(100:ℚ) * (3/2)⌋ : ℤ) : ℚ)) :=
  ⟨adaptive_limiter_props.1 0 0 0 (le_refl 0) (le_refl 0) (le_refl 0),
   adaptive_limiter_props.2.1 [] ReachableScores.empty,
   adaptive_limiter_props.2.2.1 [] ReachableScores.empty 7,
   adaptive_limiter_props.2.2.2 [] 7 100⟩

/-- C10 counterexample: `calculateTrustScore(1, 0, 1) = max(0, 1-2) = 0`
exactly; after storing it, the stored score 0 is below 0.1, yet
`shouldBlock` is false — the JS `||` treats the stored 0 as falsy and
substitutes the 0.5 default, contradicting the claim that `shouldBlock` is
true exactly when the stored score is below 0.1. -/
theorem adaptive_shouldBlock_zero_score :
    calculateTrustScore 1 0 1 = 0
    ∧ setScore [] 7 (calculateTrustScore 1 0 1) = [(7, 0)]
    ∧ ((0:ℚ) < 1/10)
    ∧ shouldBlock [(7, 0)] 7 = false := by
  have hscore : calculateTrustScore 1 0 1 = 0 := by
    unfold calculateTrustScore
    rw [max_self]
    have harg : (1:ℚ) - (0 / 1 * (1/2) + 1 / 1 * 2) = -1 := by norm_num
    rw [harg]
    exact max_eq_left (by norm_num)
  refine ⟨hscore, ?_, by norm_num, ?_⟩
  · rw [hscore]
    rfl
  · unfold shouldBlock
    apply decide_eq_false
    have hget : jsGetOr [(7, 0)] 7 (1/2) = 1/2 := by
      unfold jsGetOr
      rw [List.find?_cons_of_pos _ (by decide)]
      show (if ((7, 0) : ℕ × ℚ).2 = 0 then (1:ℚ)/2 else ((7, 0) : ℕ × ℚ).2) = 1/2
      rw [if_pos rfl]
    rw [hget]
    norm_num

end AgriBot
